import Mathlib

/-!
Verification of the boot-resilience and runtime-control state machine of the
cat-shelter ESP32 firmware.

The definitions below are a shallow embedding of the control logic in
`src/common/common.cpp` (the current, refactored implementation) together with
the safe-mode recovery block of the main loop and the manual blanket serial
commands from `main.cpp`.  Timestamps are ESP32 `millis()` values, i.e.
unsigned 32-bit milliseconds; elapsed time is always computed by the firmware
as unsigned 32-bit subtraction, which we model explicitly with `usub`.
Temperatures are `float` in the firmware, but every temperature the firmware
manipulates is only compared (never combined arithmetically) against constants
that are exactly representable, so we embed them as rationals.
-/

namespace CatShelter

/-! ### Constants from `include/common.h` -/

def MAX_BOOT_ATTEMPTS : Nat := 3
def BOOT_SUCCESS_TIMEOUT : Nat := 300000
def SAFE_MODE_RECOVERY_INTERVAL : Nat := 3600000
def CAT_PRESENCE_TIMEOUT : Nat := 3600000
def BLANKET_MIN_STATE_TIME : Nat := 300000
def PHOTO_HOURLY_INTERVAL : Nat := 600000
def PHOTO_MOTION_COOLDOWN : Nat := 60000

def TEMP_COLD_THRESHOLD : ℚ := 13
def TEMP_MAX_REASONABLE : ℚ := 45
def TEMP_MIN_REASONABLE : ℚ := -30

/-- The modulus of `unsigned long` arithmetic on the ESP32, 2^32. -/
def U32 : Nat := 4294967296

/-- Unsigned 32-bit subtraction `a - b`, as computed by expressions such as
`millis() - lastBlanketChange` in the firmware. -/
def usub (a b : Nat) : Nat := (a + (U32 - b % U32)) % U32

/-! ### Boot-resilience state (globals of `common.cpp` plus the NVM view)

`bootAttempts`/`safeMode`/`cameraAvailable`/`lastSafeModeRecoveryAttempt` are
the runtime globals; `nvmBootAttempts`/`nvmSafeMode` model the key/value pairs
`"bootAttempts"`/`"safeMode"` held by `preferences`. -/

structure BootState where
  bootAttempts : Nat
  safeMode : Bool
  cameraAvailable : Bool
  lastSafeModeRecoveryAttempt : Nat
  nvmBootAttempts : Nat
  nvmSafeMode : Bool
deriving Repr, DecidableEq

/-- Embedding of `incrementBootAttempt()` from `common.cpp`: increment and persist the
counter; at or past `MAX_BOOT_ATTEMPTS` set the runtime safe-mode flag and
persist it. -/
def incrementBootAttempt (st : BootState) : BootState :=
  let st := { st with bootAttempts := st.bootAttempts + 1,
                      nvmBootAttempts := st.bootAttempts + 1 }
  if MAX_BOOT_ATTEMPTS ≤ st.bootAttempts then
    { st with safeMode := true, nvmSafeMode := true }
  else st

/-- Embedding of `markBootSuccess()` from `common.cpp`: reset the runtime counter and the two
persisted keys; deliberately leaves the runtime `safeMode` flag (and hence
`cameraAvailable`) untouched. -/
def markBootSuccess (st : BootState) : BootState :=
  { st with bootAttempts := 0, nvmBootAttempts := 0, nvmSafeMode := false }

/-- The safe-mode recovery block executed on every iteration of `loop()`:
while in safe mode, latch a recovery timestamp on first entry
(`lastSafeModeRecoveryAttempt == 0` is the unlatched sentinel); once
`SAFE_MODE_RECOVERY_INTERVAL` has elapsed, call `markBootSuccess()` and
reboot.  The returned boolean reports whether `rebootSystem` fired. -/
def safeModeRecoveryTick (st : BootState) (now : Nat) : BootState × Bool :=
  if st.safeMode then
    let st := if st.lastSafeModeRecoveryAttempt = 0
              then { st with lastSafeModeRecoveryAttempt := now } else st
    if SAFE_MODE_RECOVERY_INTERVAL ≤ usub now st.lastSafeModeRecoveryAttempt then
      (markBootSuccess st, true)
    else (st, false)
  else (st, false)

/-! ### Presence tracking (`checkPIRSensor` in `common.cpp`) -/

structure PresenceState where
  catPresent : Bool
  lastMotionDetected : Nat
deriving Repr, DecidableEq

/-- Embedding of `checkPIRSensor()` from `common.cpp`, with the raw PIR read and `millis()`
passed as inputs. -/
def checkPIRSensor (st : PresenceState) (motionDetected : Bool) (now : Nat) :
    PresenceState :=
  if motionDetected then
    { catPresent := true, lastMotionDetected := now }
  else
    if st.catPresent = true ∧ CAT_PRESENCE_TIMEOUT ≤ usub now st.lastMotionDetected then
      { st with catPresent := false }
    else st

/-! ### Environment model (`getExpectedTemperature` / `getEffectiveTemperature`) -/

structure EnvState where
  dhtSensorWorking : Bool
  currentTemp : ℚ
deriving Repr, DecidableEq

/-- The wall clock as the firmware sees it: `time(nullptr)` (epoch seconds;
below 100000 means NTP has not synchronized yet) and `tm_hour` from
`localtime_r`. -/
structure WallClock where
  epochTime : Nat
  hour : ℤ
deriving Repr, DecidableEq

/-- The 24-entry hourly table of typical winter temperatures (°C) from
`common.cpp`. -/
def WINTER_TEMP_TABLE : List ℚ :=
  [-2, -3, -7/2, -4, -7/2, -3, -2, -1, 0, 2, 4, 6, 7, 8,
   7, 6, 4, 2, 1, 0, -1, -3/2, -2, -2]

/-- Embedding of `getExpectedTemperature()` from `common.cpp`: table entry for the current
hour, or the 03:00 entry when wall-clock time is not yet synchronized; an
out-of-range hour is clamped to 0. -/
def getExpectedTemperature (clk : WallClock) : ℚ :=
  if clk.epochTime < 100000 then
    WINTER_TEMP_TABLE.getD 3 0
  else
    WINTER_TEMP_TABLE.getD (if clk.hour < 0 ∨ 24 ≤ clk.hour then (0 : ℤ) else clk.hour).toNat 0

/-- Embedding of `getEffectiveTemperature()` from `common.cpp`: fall back to the expected
temperature when the DHT22 is not working or the reading is implausible. -/
def getEffectiveTemperature (env : EnvState) (clk : WallClock) : ℚ :=
  if env.dhtSensorWorking = false then
    getExpectedTemperature clk
  else if TEMP_MAX_REASONABLE < env.currentTemp ∨ env.currentTemp < TEMP_MIN_REASONABLE then
    getExpectedTemperature clk
  else env.currentTemp

/-! ### Blanket actuation (`controlBlanket` / `updateBlanketControl`) -/

structure BlanketState where
  blanketOn : Bool
  blanketManualOverride : Bool
  lastBlanketChange : Nat
deriving Repr, DecidableEq

/-- Embedding of `controlBlanket()` from `common.cpp`: flip the relay and stamp
`lastBlanketChange` only when the requested state differs. -/
def controlBlanket (st : BlanketState) (shouldBeOn : Bool) (now : Nat) :
    BlanketState :=
  if shouldBeOn ≠ st.blanketOn then
    { st with blanketOn := shouldBeOn, lastBlanketChange := now }
  else st

/-- The decision expression of `updateBlanketControl()`:
`catPresent && (effectiveTemp < TEMP_COLD_THRESHOLD)`. -/
def blanketDesired (catPresent : Bool) (effectiveTemp : ℚ) : Bool :=
  catPresent && decide (effectiveTemp < TEMP_COLD_THRESHOLD)

/-- Embedding of `updateBlanketControl()` from `common.cpp`: skip entirely under manual
override; otherwise compute the desired state from presence and the effective
temperature and apply it only when `BLANKET_MIN_STATE_TIME` has elapsed since
the last change. -/
def updateBlanketControl (st : BlanketState) (catPresent : Bool)
    (env : EnvState) (clk : WallClock) (now : Nat) : BlanketState :=
  if st.blanketManualOverride then st
  else
    let effectiveTemp := getEffectiveTemperature env clk
    let shouldBeOn := blanketDesired catPresent effectiveTemp
    if shouldBeOn ≠ st.blanketOn then
      if BLANKET_MIN_STATE_TIME ≤ usub now st.lastBlanketChange then
        controlBlanket st shouldBeOn now
      else st
    else st

/-- The `"blanket on"` / `"blanket off"` serial-command branches of
`handleSerialCommands()` in `main.cpp`: set `blanketManualOverride` and call
`controlBlanket` directly, with no dwell-time check. -/
def handleBlanketCommand (st : BlanketState) (turnOn : Bool) (now : Nat) :
    BlanketState :=
  controlBlanket { st with blanketManualOverride := true } turnOn now

/-- Run `updateBlanketControl` over a list of loop ticks, each supplying a
`millis()` timestamp and the sensor/clock inputs of that tick, with the
presence flag held fixed. -/
def runBlanketTicks (st : BlanketState) (catPresent : Bool)
    (ticks : List (Nat × EnvState × WallClock)) : BlanketState :=
  ticks.foldl (fun s t => updateBlanketControl s catPresent t.2.1 t.2.2 t.1) st

/-! ### Photo scheduling (`checkPhotoSchedule` in `common.cpp`) -/

inductive CaptureReason where
  | scheduled
  | motionDetected
deriving Repr, DecidableEq

structure ScheduleState where
  cameraAvailable : Bool
  lastHourlyPhotoTime : Nat
  lastPhotoTime : Nat
  lastCatPresent : Bool
deriving Repr, DecidableEq

/-- Embedding of `checkPhotoSchedule()` from `common.cpp`: skip when the camera is
unavailable; a periodic capture takes priority, resets both timestamps and
returns early (leaving `lastCatPresent` untouched); otherwise a
motion-edge capture fires subject to the cooldown.  The optional result is
the `takeAndUploadPhoto` reason, `none` when no capture fires. -/
def checkPhotoSchedule (st : ScheduleState) (catPresent : Bool) (now : Nat) :
    ScheduleState × Option CaptureReason :=
  if st.cameraAvailable = false then (st, none)
  else if PHOTO_HOURLY_INTERVAL ≤ usub now st.lastHourlyPhotoTime then
    ({ st with lastHourlyPhotoTime := now, lastPhotoTime := now },
     some CaptureReason.scheduled)
  else
    let catJustArrived := catPresent && !st.lastCatPresent
    let cooldownExpired : Bool := decide (PHOTO_MOTION_COOLDOWN ≤ usub now st.lastPhotoTime)
    if catJustArrived && cooldownExpired then
      ({ st with lastPhotoTime := now, lastCatPresent := catPresent },
       some CaptureReason.motionDetected)
    else ({ st with lastCatPresent := catPresent }, none)

/-! ### Arithmetic helper lemmas -/

lemma usub_self (a : Nat) : usub a a = 0 := by
  simp [usub, U32]
  omega

lemma usub_eq_sub {a b : Nat} (hba : b ≤ a) (hlt : a - b < U32) :
    usub a b = a - b := by
  simp [usub, U32] at *
  omega

/-- When the wall clock is synchronized and `localtime` reports an in-range
hour, `getExpectedTemperature` is the table entry for that hour. -/
lemma getExpectedTemperature_synced (clk : WallClock)
    (hsync : 100000 ≤ clk.epochTime) (h0 : 0 ≤ clk.hour) (h24 : clk.hour < 24) :
    getExpectedTemperature clk = WINTER_TEMP_TABLE.getD clk.hour.toNat 0 := by
  unfold getExpectedTemperature
  rw [if_neg (by omega), if_neg (by omega)]

/-- Whatever the clock says, `getExpectedTemperature` returns some entry of
the table. -/
lemma table_getD_mem (i : ℕ) (h : i < 24) :
    WINTER_TEMP_TABLE.getD i 0 ∈ WINTER_TEMP_TABLE := by
  have hl : i < WINTER_TEMP_TABLE.length := by
    simp only [WINTER_TEMP_TABLE, List.length]; omega
  rw [List.getD_eq_getElem _ _ hl]
  exact List.getElem_mem hl

lemma getExpectedTemperature_mem (clk : WallClock) :
    getExpectedTemperature clk ∈ WINTER_TEMP_TABLE := by
  have key := table_getD_mem
  unfold getExpectedTemperature
  by_cases hs : clk.epochTime < 100000
  · rw [if_pos hs]; exact key 3 (by omega)
  · rw [if_neg hs]
    by_cases hh : clk.hour < 0 ∨ 24 ≤ clk.hour
    · rw [if_pos hh]; exact key 0 (by omega)
    · rw [if_neg hh]; exact key clk.hour.toNat (by omega)

/-- The automatic decision is suppressed whenever strictly less than
`BLANKET_MIN_STATE_TIME` has elapsed since the last relay change. -/
lemma updateBlanketControl_recent_no_change (st : BlanketState) (p : Bool)
    (env : EnvState) (clk : WallClock) (now : Nat)
    (h1 : st.lastBlanketChange ≤ now)
    (h2 : now < st.lastBlanketChange + BLANKET_MIN_STATE_TIME) :
    updateBlanketControl st p env clk now = st := by
  have hu : usub now st.lastBlanketChange = now - st.lastBlanketChange :=
    usub_eq_sub h1 (by unfold U32 BLANKET_MIN_STATE_TIME at *; omega)
  simp only [updateBlanketControl]
  by_cases ho : st.blanketManualOverride = true
  · rw [if_pos ho]
  · rw [if_neg ho]
    by_cases hd : blanketDesired p (getEffectiveTemperature env clk) ≠ st.blanketOn
    · rw [if_pos hd,
        if_neg (by rw [hu]; unfold BLANKET_MIN_STATE_TIME at *; omega)]
    · rw [if_neg hd]

/-- A run of loop ticks that all fall strictly inside the dwell window opened
at `st.lastBlanketChange` leaves the actuator state untouched. -/
lemma runBlanketTicks_within_window (p : Bool)
    (ticks : List (Nat × EnvState × WallClock)) :
    ∀ st : BlanketState,
      (∀ t ∈ ticks, st.lastBlanketChange ≤ t.1 ∧
        t.1 < st.lastBlanketChange + BLANKET_MIN_STATE_TIME) →
      runBlanketTicks st p ticks = st := by
  induction ticks with
  | nil => intro st _; rfl
  | cons t ts ih =>
    intro st hall
    have ht := hall t (List.mem_cons_self t ts)
    have hstep : updateBlanketControl st p t.2.1 t.2.2 t.1 = st :=
      updateBlanketControl_recent_no_change st p t.2.1 t.2.2 t.1 ht.1 ht.2
    simp only [runBlanketTicks, List.foldl_cons]
    rw [hstep]
    exact ih st (fun x hx => hall x (List.mem_cons_of_mem t hx))

/-! ### Claim theorems -/

/-- C1. `incrementBootAttempt` (the `onBoot()` step) increments the counter
and persists it; whenever the incremented counter reaches
`MAX_BOOT_ATTEMPTS` it sets the runtime safe-mode flag and persists
`safeModeFlag = true` (below the threshold both flags are untouched); and
incrementing again past the threshold without an intervening
`markBootSuccess` leaves the persisted flag true. -/
theorem incrementBootAttempt_escalation (st : BootState) :
    (incrementBootAttempt st).bootAttempts = st.bootAttempts + 1 ∧
    (incrementBootAttempt st).nvmBootAttempts = st.bootAttempts + 1 ∧
    (MAX_BOOT_ATTEMPTS ≤ st.bootAttempts + 1 →
      (incrementBootAttempt st).safeMode = true ∧
      (incrementBootAttempt st).nvmSafeMode = true) ∧
    (st.bootAttempts + 1 < MAX_BOOT_ATTEMPTS →
      (incrementBootAttempt st).safeMode = st.safeMode ∧
      (incrementBootAttempt st).nvmSafeMode = st.nvmSafeMode) ∧
    (MAX_BOOT_ATTEMPTS ≤ st.bootAttempts + 1 →
      (incrementBootAttempt (incrementBootAttempt st)).safeMode = true ∧
      (incrementBootAttempt (incrementBootAttempt st)).nvmSafeMode = true) := by
  by_cases h : MAX_BOOT_ATTEMPTS ≤ st.bootAttempts + 1
  · have h2 : MAX_BOOT_ATTEMPTS ≤ st.bootAttempts + 1 + 1 := Nat.le_succ_of_le h
    simp [incrementBootAttempt, h, h2]
  · simp [incrementBootAttempt, h]

/-- Witness for C1: the third boot attempt escalates into safe mode. -/
theorem incrementBootAttempt_escalation_witness :
    (incrementBootAttempt ⟨2, false, true, 0, 2, false⟩).safeMode = true ∧
    (incrementBootAttempt ⟨2, false, true, 0, 2, false⟩).nvmSafeMode = true :=
  (incrementBootAttempt_escalation ⟨2, false, true, 0, 2, false⟩).2.2.1 (by decide)

/-- C2. `markBootSuccess` resets the persisted attempt count to 0 and the
persisted safe-mode flag to false from any prior state, resets the runtime
counter as well, and leaves the in-session runtime `safeMode` flag and
`cameraAvailable` unchanged — so a session that booted into safe mode keeps
the camera disabled after `markBootSuccess` runs. -/
theorem markBootSuccess_frame (st : BootState) :
    (markBootSuccess st).bootAttempts = 0 ∧
    (markBootSuccess st).nvmBootAttempts = 0 ∧
    (markBootSuccess st).nvmSafeMode = false ∧
    (markBootSuccess st).safeMode = st.safeMode ∧
    (markBootSuccess st).cameraAvailable = st.cameraAvailable ∧
    (markBootSuccess st).lastSafeModeRecoveryAttempt = st.lastSafeModeRecoveryAttempt := by
  simp [markBootSuccess]

/-- C5. `checkPIRSensor`: motion sets presence unconditionally and stamps the
timestamp; with no motion, presence drops exactly when the timeout has
elapsed while present; in every other case the state is unchanged. -/
theorem checkPIRSensor_cases (st : PresenceState) (motion : Bool) (now : Nat) :
    (motion = true →
      checkPIRSensor st motion now = ⟨true, now⟩) ∧
    (motion = false → st.catPresent = true →
      CAT_PRESENCE_TIMEOUT ≤ usub now st.lastMotionDetected →
      checkPIRSensor st motion now = { st with catPresent := false }) ∧
    (motion = false →
      (st.catPresent = false ∨ usub now st.lastMotionDetected < CAT_PRESENCE_TIMEOUT) →
      checkPIRSensor st motion now = st) := by
  refine ⟨?_, ?_, ?_⟩
  · intro h; simp [checkPIRSensor, h]
  · intro h hp ht; simp [checkPIRSensor, h, hp, ht]
  · intro h hcase
    rcases hcase with hp | ht
    · simp [checkPIRSensor, h, hp]
    · simp [checkPIRSensor, h, Nat.not_le.mpr ht]

/-- Witness for C5: a motion pulse at t=5 makes the cat present. -/
theorem checkPIRSensor_cases_witness :
    checkPIRSensor ⟨false, 0⟩ true 5 = ⟨true, 5⟩ :=
  (checkPIRSensor_cases ⟨false, 0⟩ true 5).1 rfl

/-- C6. The safe-mode recovery block of `loop()`: while in safe mode, an
unlatched tick latches the recovery timestamp to `now` and does not fire;
once latched, nothing happens before `SAFE_MODE_RECOVERY_INTERVAL` has
elapsed, and as soon as it has, the tick applies `markBootSuccess` (persisted
counter 0, persisted flag false) and forces a reboot. -/
theorem safeModeRecoveryTick_cases (st : BootState) (now : Nat) :
    (st.safeMode = true → st.lastSafeModeRecoveryAttempt = 0 →
      safeModeRecoveryTick st now =
        ({ st with lastSafeModeRecoveryAttempt := now }, false)) ∧
    (st.safeMode = true → st.lastSafeModeRecoveryAttempt ≠ 0 →
      usub now st.lastSafeModeRecoveryAttempt < SAFE_MODE_RECOVERY_INTERVAL →
      safeModeRecoveryTick st now = (st, false)) ∧
    (st.safeMode = true → st.lastSafeModeRecoveryAttempt ≠ 0 →
      SAFE_MODE_RECOVERY_INTERVAL ≤ usub now st.lastSafeModeRecoveryAttempt →
      safeModeRecoveryTick st now = (markBootSuccess st, true) ∧
      (safeModeRecoveryTick st now).1.nvmBootAttempts = 0 ∧
      (safeModeRecoveryTick st now).1.nvmSafeMode = false) := by
  refine ⟨?_, ?_, ?_⟩
  · intro hs h0
    have hz : usub now now = 0 := usub_self now
    simp [safeModeRecoveryTick, hs, h0, hz, SAFE_MODE_RECOVERY_INTERVAL]
  · intro hs h0 hlt
    simp [safeModeRecoveryTick, hs, h0, Nat.not_le.mpr hlt]
  · intro hs h0 hge
    simp [safeModeRecoveryTick, hs, h0, hge, markBootSuccess]

/-- Witness for C6: one hour after latching, the tick resets the persisted
state and reboots. -/
theorem safeModeRecoveryTick_cases_witness :
    safeModeRecoveryTick ⟨3, true, false, 1000, 3, true⟩ 3601000 =
      (markBootSuccess ⟨3, true, false, 1000, 3, true⟩, true) :=
  ((safeModeRecoveryTick_cases ⟨3, true, false, 1000, 3, true⟩ 3601000).2.2
    rfl (by decide) (by decide)).1

/-- C4. For an invalid (sensor-unhealthy) or out-of-bounds temperature input,
`getEffectiveTemperature` equals the table lookup for the current hour, for
every hour of the day; for a healthy in-bounds reading it returns the raw
value. -/
theorem getEffectiveTemperature_fallback (env : EnvState) (clk : WallClock)
    (hsync : 100000 ≤ clk.epochTime) (h0 : 0 ≤ clk.hour) (h24 : clk.hour < 24) :
    (env.dhtSensorWorking = false ∨ TEMP_MAX_REASONABLE < env.currentTemp ∨
        env.currentTemp < TEMP_MIN_REASONABLE →
      getEffectiveTemperature env clk = WINTER_TEMP_TABLE.getD clk.hour.toNat 0) ∧
    (env.dhtSensorWorking = true → TEMP_MIN_REASONABLE ≤ env.currentTemp →
      env.currentTemp ≤ TEMP_MAX_REASONABLE →
      getEffectiveTemperature env clk = env.currentTemp) := by
  have he := getExpectedTemperature_synced clk hsync h0 h24
  constructor
  · intro hcase
    unfold getEffectiveTemperature
    by_cases hw : env.dhtSensorWorking = false
    · rw [if_pos hw, he]
    · have hout : TEMP_MAX_REASONABLE < env.currentTemp ∨
          env.currentTemp < TEMP_MIN_REASONABLE := by
        rcases hcase with h | h
        · exact absurd h hw
        · exact h
      rw [if_neg hw, if_pos hout, he]
  · intro hw hlo hhi
    unfold getEffectiveTemperature
    rw [if_neg (by simp [hw]), if_neg (by push_neg; exact ⟨hhi, hlo⟩)]

/-- Witness for C4: with a dead sensor at 13:00 the effective temperature is
the 13:00 table entry. -/
theorem getEffectiveTemperature_fallback_witness :
    getEffectiveTemperature ⟨false, 100⟩ ⟨200000, 13⟩ =
      WINTER_TEMP_TABLE.getD (13 : ℤ).toNat 0 :=
  (getEffectiveTemperature_fallback ⟨false, 100⟩ ⟨200000, 13⟩
    (by norm_num) (by norm_num) (by norm_num)).1 (Or.inl rfl)

/-- C7. `checkPhotoSchedule` (with the camera available): a periodic capture
fires whenever the periodic interval has elapsed, takes priority, and resets
both timestamps to `now`; otherwise a motion capture fires iff presence just
rose and the cooldown has expired; otherwise no capture fires. -/
theorem checkPhotoSchedule_gate (st : ScheduleState) (present : Bool) (now : Nat)
    (hcam : st.cameraAvailable = true) :
    (PHOTO_HOURLY_INTERVAL ≤ usub now st.lastHourlyPhotoTime →
      checkPhotoSchedule st present now =
        ({ st with lastHourlyPhotoTime := now, lastPhotoTime := now },
         some CaptureReason.scheduled)) ∧
    (usub now st.lastHourlyPhotoTime < PHOTO_HOURLY_INTERVAL →
      present = true → st.lastCatPresent = false →
      PHOTO_MOTION_COOLDOWN ≤ usub now st.lastPhotoTime →
      checkPhotoSchedule st present now =
        ({ st with lastPhotoTime := now, lastCatPresent := present },
         some CaptureReason.motionDetected)) ∧
    (usub now st.lastHourlyPhotoTime < PHOTO_HOURLY_INTERVAL →
      (present = false ∨ st.lastCatPresent = true ∨
        usub now st.lastPhotoTime < PHOTO_MOTION_COOLDOWN) →
      checkPhotoSchedule st present now =
        ({ st with lastCatPresent := present }, none)) := by
  refine ⟨?_, ?_, ?_⟩
  · intro hp
    simp [checkPhotoSchedule, hcam, hp]
  · intro hnp hpr hl hc
    simp [checkPhotoSchedule, hcam, Nat.not_le.mpr hnp, hpr, hl, hc]
  · intro hnp hcase
    rcases hcase with h | h | h
    · simp [checkPhotoSchedule, hcam, Nat.not_le.mpr hnp, h]
    · simp [checkPhotoSchedule, hcam, Nat.not_le.mpr hnp, h]
    · simp [checkPhotoSchedule, hcam, Nat.not_le.mpr hnp, Nat.not_le.mpr h]

/-- Witness for C7: at the periodic boundary the scheduled capture fires and
both timers reset. -/
theorem checkPhotoSchedule_gate_witness :
    checkPhotoSchedule ⟨true, 0, 0, false⟩ false 600000 =
      (⟨true, 600000, 600000, false⟩, some CaptureReason.scheduled) :=
  (checkPhotoSchedule_gate ⟨true, 0, 0, false⟩ false 600000 rfl).1 (by decide)

/-- C8. While the manual override flag is set, the automatic blanket control
step changes nothing at all; and the manual blanket-on/off serial command
applies the requested relay state with no dwell-time condition and latches
the override. -/
theorem blanketManualOverride_spec :
    (∀ (st : BlanketState) (p : Bool) (env : EnvState) (clk : WallClock) (now : Nat),
      st.blanketManualOverride = true →
      updateBlanketControl st p env clk now = st) ∧
    (∀ (st : BlanketState) (turnOn : Bool) (now : Nat),
      (handleBlanketCommand st turnOn now).blanketOn = turnOn ∧
      (handleBlanketCommand st turnOn now).blanketManualOverride = true) := by
  constructor
  · intro st p env clk now h
    simp [updateBlanketControl, h]
  · intro st t now
    by_cases h : t = st.blanketOn <;>
      simp [handleBlanketCommand, controlBlanket, h]

/-- Witness for C8: with the override set, a tick that would otherwise turn
the blanket off leaves the state untouched. -/
theorem blanketManualOverride_spec_witness :
    updateBlanketControl ⟨true, true, 0⟩ false ⟨true, 20⟩ ⟨200000, 12⟩ 999999 =
      ⟨true, true, 0⟩ :=
  blanketManualOverride_spec.1 ⟨true, true, 0⟩ false ⟨true, 20⟩ ⟨200000, 12⟩ 999999 rfl

/-- C9. When wall-clock time is unavailable, `getExpectedTemperature` returns
an entry of the winter table that is a lower bound of the whole table, i.e.
the table's minimum (the coldest hour). -/
theorem getExpectedTemperature_unsynced_min (clk : WallClock)
    (h : clk.epochTime < 100000) :
    getExpectedTemperature clk ∈ WINTER_TEMP_TABLE ∧
    ∀ x ∈ WINTER_TEMP_TABLE, getExpectedTemperature clk ≤ x := by
  have e : getExpectedTemperature clk = -4 := by
    unfold getExpectedTemperature
    rw [if_pos h]
    norm_num [WINTER_TEMP_TABLE]
  rw [e]
  constructor
  · norm_num [WINTER_TEMP_TABLE]
  · norm_num [WINTER_TEMP_TABLE, List.forall_mem_cons]

/-- Witness for C9: with an unsynchronized clock the result is in the table
and lies below the midnight entry. -/
theorem getExpectedTemperature_unsynced_min_witness :
    getExpectedTemperature ⟨99999, 7⟩ ∈ WINTER_TEMP_TABLE ∧
    getExpectedTemperature ⟨99999, 7⟩ ≤ -2 :=
  ⟨(getExpectedTemperature_unsynced_min ⟨99999, 7⟩ (by norm_num)).1,
   (getExpectedTemperature_unsynced_min ⟨99999, 7⟩ (by norm_num)).2 (-2)
     (by norm_num [WINTER_TEMP_TABLE])⟩

/-- C10. Every entry of the 24-hour fallback table is strictly below
`TEMP_COLD_THRESHOLD`, so whenever the sensor is unhealthy or its reading
implausible and the cat is present, the automatic decision is blanket-on. -/
theorem winterTable_below_threshold_keeps_heating :
    (∀ x ∈ WINTER_TEMP_TABLE, x < TEMP_COLD_THRESHOLD) ∧
    (∀ (env : EnvState) (clk : WallClock),
      env.dhtSensorWorking = false ∨ TEMP_MAX_REASONABLE < env.currentTemp ∨
        env.currentTemp < TEMP_MIN_REASONABLE →
      blanketDesired true (getEffectiveTemperature env clk) = true) := by
  have htab : ∀ x ∈ WINTER_TEMP_TABLE, x < TEMP_COLD_THRESHOLD := by
    norm_num [WINTER_TEMP_TABLE, TEMP_COLD_THRESHOLD, List.forall_mem_cons]
  refine ⟨htab, ?_⟩
  intro env clk hcase
  have hmem : getEffectiveTemperature env clk ∈ WINTER_TEMP_TABLE := by
    unfold getEffectiveTemperature
    by_cases hw : env.dhtSensorWorking = false
    · rw [if_pos hw]; exact getExpectedTemperature_mem clk
    · have hout : TEMP_MAX_REASONABLE < env.currentTemp ∨
          env.currentTemp < TEMP_MIN_REASONABLE := by
        rcases hcase with h | h
        · exact absurd h hw
        · exact h
      rw [if_neg hw, if_pos hout]; exact getExpectedTemperature_mem clk
  have hcold := htab _ hmem
  simp [blanketDesired]
  exact hcold

/-- Witness for C10: dead sensor, unsynchronized clock, cat present: the
decision is blanket-on. -/
theorem winterTable_below_threshold_keeps_heating_witness :
    blanketDesired true (getEffectiveTemperature ⟨false, 0⟩ ⟨0, 0⟩) = true :=
  winterTable_below_threshold_keeps_heating.2 ⟨false, 0⟩ ⟨0, 0⟩ (Or.inl rfl)

/-- C3 counterexample: the very first automatic decision after boot is NOT
forced through.  At boot `lastBlanketChange = 0`; with the cat present and a
cold reading at `now = 1000` ms the desired state is on, yet
`updateBlanketControl` leaves the relay off because the dwell check
`now - lastBlanketChange >= BLANKET_MIN_STATE_TIME` fails. -/
theorem updateBlanketControl_first_decision_not_forced :
    blanketDesired true (getEffectiveTemperature ⟨true, 5⟩ ⟨1000000, 12⟩) = true ∧
    updateBlanketControl ⟨false, false, 0⟩ true ⟨true, 5⟩ ⟨1000000, 12⟩ 1000 =
      ⟨false, false, 0⟩ := by
  constructor
  · norm_num [blanketDesired, getEffectiveTemperature, TEMP_MAX_REASONABLE,
      TEMP_MIN_REASONABLE, TEMP_COLD_THRESHOLD]
  · exact updateBlanketControl_recent_no_change _ _ _ _ _ (by norm_num)
      (by norm_num [BLANKET_MIN_STATE_TIME])

/-- C3 (amended). Under automatic control a relay transition is applied only
if `BLANKET_MIN_STATE_TIME` has elapsed since `lastBlanketChange` — with no
exception for the first decision, whose dwell window starts from the boot
value `lastBlanketChange = 0` — and any applied transition stamps
`lastBlanketChange := now`; consequently, over any run of ticks lying
strictly inside one dwell window (in particular an oscillating temperature
sampled faster than the dwell), the relay does not toggle again. -/
theorem updateBlanketControl_min_dwell :
    (∀ (st : BlanketState) (p : Bool) (env : EnvState) (clk : WallClock) (now : Nat),
      (updateBlanketControl st p env clk now).blanketOn ≠ st.blanketOn →
      BLANKET_MIN_STATE_TIME ≤ usub now st.lastBlanketChange ∧
      (updateBlanketControl st p env clk now).lastBlanketChange = now) ∧
    (∀ (st : BlanketState) (p : Bool) (ticks : List (Nat × EnvState × WallClock)),
      (∀ t ∈ ticks, st.lastBlanketChange ≤ t.1 ∧
        t.1 < st.lastBlanketChange + BLANKET_MIN_STATE_TIME) →
      runBlanketTicks st p ticks = st) := by
  constructor
  · intro st p env clk now hne
    simp only [updateBlanketControl] at hne ⊢
    by_cases ho : st.blanketManualOverride = true
    · rw [if_pos ho] at hne; exact absurd rfl hne
    · rw [if_neg ho] at hne ⊢
      by_cases hd : blanketDesired p (getEffectiveTemperature env clk) ≠ st.blanketOn
      · rw [if_pos hd] at hne ⊢
        by_cases hdw : BLANKET_MIN_STATE_TIME ≤ usub now st.lastBlanketChange
        · rw [if_pos hdw]
          refine ⟨hdw, ?_⟩
          simp [controlBlanket, hd]
        · rw [if_neg hdw] at hne; exact absurd rfl hne
      · rw [if_neg hd] at hne; exact absurd rfl hne
  · intro st p ticks hall
    exact runBlanketTicks_within_window p ticks st hall

/-- Witness for C3 (amended): once the dwell has elapsed, a needed transition
is applied and stamps the change time. -/
theorem updateBlanketControl_min_dwell_witness :
    BLANKET_MIN_STATE_TIME ≤ usub 300000 0 ∧
    (updateBlanketControl ⟨false, false, 0⟩ true ⟨true, 5⟩ ⟨1000000, 12⟩
        300000).lastBlanketChange = 300000 :=
  updateBlanketControl_min_dwell.1 ⟨false, false, 0⟩ true ⟨true, 5⟩ ⟨1000000, 12⟩
    300000 (by norm_num [updateBlanketControl, controlBlanket, blanketDesired,
      getEffectiveTemperature, getExpectedTemperature, usub, U32,
      TEMP_MAX_REASONABLE, TEMP_MIN_REASONABLE, TEMP_COLD_THRESHOLD,
      BLANKET_MIN_STATE_TIME])

end CatShelter
